import Mathlib

/-!
Verification development for `cdda-mods-utils` (`src/main.py`).

The program scans mod folders, reads each folder's `modinfo.json`
descriptor, and renders a concatenated YAML-like document.  We embed the
three functions of `src/main.py` shallowly:

* `calculate_folder_size` (lines 17-32): the filesystem is modelled as a
  tree `FSEntry`; `os.walk` visits every regular file reachable from the
  folder and the function sums their sizes.
* `convert_json_to_custom_yaml` (lines 34-112): JSON/Python values are
  modelled by `JValue`; the result of `json.load` is an
  `Except String JValue` (`.error` = `json.JSONDecodeError` raised).  The
  function itself returns `Except String String`, where `.error` models a
  Python exception escaping the function (`json.load` failure,
  `AttributeError` from `item.get` on a non-dict entry, or a `TypeError`
  from `+`/`str.join` on an unexpectedly-shaped field value).
* `find_folders_and_convert_json` (lines 117-140): folders are a list of
  `Folder` records; the output file is an `Option String`
  (`none` = `all_modinfo.yaml` absent).  `print` calls (pure reporting to
  stdout) are not modelled; only the returned/raised values and the file
  contents are.
-/

/-- A Python value as produced by `json.load` (plus `bool`/`None`, which
JSON can also produce).  Numbers are modelled as integers: the descriptors
the program reads use integral numbers only and no claim depends on float
formatting.  Dictionaries are association lists in insertion order, with
unique keys, exactly as `json.load` yields them. -/
inductive JValue where
  | null : JValue
  | bool : Bool → JValue
  | num  : Int → JValue
  | str  : String → JValue
  | list : List JValue → JValue
  | dict : List (String × JValue) → JValue

/-- Python equality of a loaded value against a string literal
(`type != 'MOD_INFO'`): true exactly when the value is that string; a
non-string value never equals a `str`. -/
def jEqStr : JValue → String → Bool
  | .str s, t => s = t
  | _, _ => false

/-- Python `repr` of a value, as used by `str` on lists and dicts.
Escaping of quote characters inside strings is not modelled: the rendered
descriptors never put quotes inside nested list/dict elements. -/
def pyRepr : JValue → String
  | .null => "None"
  | .bool true => "True"
  | .bool false => "False"
  | .num n => toString n
  | .str s => "'" ++ s ++ "'"
  | .list xs => "[" ++ pyReprList xs ++ "]"
  | .dict kvs => "\x7b" ++ pyReprDict kvs ++ "\x7d"
where
  pyReprList : List JValue → String
    | [] => ""
    | [x] => pyRepr x
    | x :: y :: xs => pyRepr x ++ ", " ++ pyReprList (y :: xs)
  pyReprDict : List (String × JValue) → String
    | [] => ""
    | [(k, v)] => "'" ++ k ++ "': " ++ pyRepr v
    | (k, v) :: kv :: kvs => "'" ++ k ++ "': " ++ pyRepr v ++ ", " ++ pyReprDict (kv :: kvs)

/-- Python `str` of a value, the meaning of an `f"{v}"` interpolation:
identity on strings, `repr`-based rendering elsewhere. -/
def pyStr : JValue → String
  | .str s => s
  | v => pyRepr v

/-- Python truthiness (`if not name: ...`). -/
def pyTruthy : JValue → Bool
  | .null => false
  | .bool b => b
  | .num n => n != 0
  | .str s => s != ""
  | .list xs => !xs.isEmpty
  | .dict kvs => !kvs.isEmpty

/-- Python `dict.get(key, default)` on the association list of a loaded
JSON object (keys are unique, so first match is the match). -/
def pyGet : List (String × JValue) → String → JValue → JValue
  | [], _, d => d
  | (k', v) :: rest, k, d => if k' = k then v else pyGet rest k d

/-- Python `sep.join(parts)`. -/
def pyJoin (sep : String) : List String → String
  | [] => ""
  | [x] => x
  | x :: y :: xs => x ++ sep ++ pyJoin sep (y :: xs)

/-- Helper for `pySplitlines`: accumulates the current line. -/
def pySplitlinesAux : List Char → List Char → List String
  | [], cur => if cur.isEmpty then [] else [⟨cur⟩]
  | c :: rest, cur =>
    if c = '\n' then (⟨cur⟩ : String) :: pySplitlinesAux rest []
    else pySplitlinesAux rest (cur ++ [c])

/-- Python `str.splitlines()` restricted to `'\n'` line boundaries (the
only line boundary JSON string escapes produce): splits at each newline,
with no empty final line after a trailing newline. -/
def pySplitlines (s : String) : List String :=
  pySplitlinesAux s.data []

/-- Python iteration (`for x in v`): a string yields its characters as
one-character strings, a list its elements, a dict its keys; other values
raise `TypeError` (`none`). -/
def pyIter : JValue → Option (List JValue)
  | .str s => some (s.data.map fun c => .str (String.singleton c))
  | .list xs => some xs
  | .dict kvs => some (kvs.map fun kv => .str kv.1)
  | _ => none

/-- A filesystem tree: a named regular file with a byte size, or a named
directory with children. -/
inductive FSEntry where
  | file : String → Nat → FSEntry
  | dir  : String → List FSEntry → FSEntry

/-- Byte sizes of the regular files directly inside a directory's child
list (the `filenames` component of one `os.walk` step). -/
def topFiles : List FSEntry → List Nat
  | [] => []
  | .file _ s :: rest => s :: topFiles rest
  | .dir _ _ :: rest => topFiles rest

/-- Sizes of every regular file `os.walk` yields from a path: a
directory contributes its own files and then each child subtree
(`os.walk` yields each regular file exactly once; the program only sums
the sizes, so the exact visit order is irrelevant); `os.walk` of a
non-directory path yields nothing. -/
def walkEntry : FSEntry → List Nat
  | .file _ _ => []
  | .dir _ cs => topFiles cs ++ walkChildren cs
where
  walkChildren : List FSEntry → List Nat
    | [] => []
    | c :: rest => walkEntry c ++ walkChildren rest

/-- Embedding of `calculate_folder_size` (src/main.py lines 17-32):
`total_size` starts at 0 and accumulates `os.path.getsize` of every file
yielded by `os.walk(folder_path)`. -/
def calculate_folder_size (folder_path : FSEntry) : Nat :=
  (walkEntry folder_path).sum

/-- Rendering of the (already truthy) `name` field, src/main.py lines
59-60 together with the concatenation at line 99: a string passes through;
a dict is flattened to `"k: v | k: v"`; any other truthy shape makes the
`+` at line 99 raise `TypeError` (`none`). -/
def renderName : JValue → Option String
  | .str s => some s
  | .dict kvs => some (pyJoin " | " (kvs.map fun kv => kv.1 ++ ": " ++ pyStr kv.2))
  | _ => none

/-- Rendering of `id_value`, src/main.py lines 62-66 together with the
concatenation at line 98: a string passes through (`f'{id_value}'` is the
identity on strings); a list becomes the joined `    - item` block; any
other shape leaves a non-string that makes the `+` at line 98 raise
`TypeError`. -/
def renderId : JValue → Option String
  | .str s => some s
  | .list xs => some (pyJoin "" (xs.map fun v => "    - " ++ pyStr v ++ "\n"))
  | _ => none

/-- Rendering of `authors`, src/main.py lines 68-73 together with line
100: a bare string is first wrapped into a one-element Python list and
then joined; a list is joined directly; any other shape stays non-string
and the `+` at line 100 raises `TypeError`. -/
def renderAuthors : JValue → Option String
  | .str s => some (pyJoin "" ([s].map fun author => "    - \"" ++ author ++ "\"\n"))
  | .list xs => some (pyJoin "" (xs.map fun author => "    - \"" ++ pyStr author ++ "\"\n"))
  | _ => none

/-- Rendering of `maintainers`, src/main.py lines 75-80 together with
line 101 (same coercion as `renderAuthors`, but the items are not
quoted). -/
def renderMaintainers : JValue → Option String
  | .str s => some (pyJoin "" ([s].map fun maintainer => "    - " ++ maintainer ++ "\n"))
  | .list xs => some (pyJoin "" (xs.map fun maintainer => "    - " ++ pyStr maintainer ++ "\n"))
  | _ => none

/-- True exactly for string values. -/
def jIsStr : JValue → Bool
  | .str _ => true
  | _ => false

/-- The string inside a string value (unused on other shapes). -/
def jStrVal : JValue → String
  | .str s => s
  | _ => ""

/-- Rendering of `formatted_description`, src/main.py lines 83-90: a
string is re-joined over its lines with `"\n    "`; a list is joined the
same way (`str.join` raises `TypeError` if any element is not a string);
a dict is joined over its `"k: v"` pairs; any other shape leaves the
initial empty string. -/
def renderDescription : JValue → Option String
  | .str s => some (pyJoin "\n    " (pySplitlines s))
  | .list xs => if xs.all jIsStr then some (pyJoin "\n    " (xs.map jStrVal)) else none
  | .dict kvs => some (pyJoin "\n    " (kvs.map fun kv => kv.1 ++ ": " ++ pyStr kv.2))
  | _ => some ""

/-- Rendering of `category`, src/main.py line 103: the `+` concatenation
requires a string; any other shape raises `TypeError`. -/
def renderCategory : JValue → Option String
  | .str s => some s
  | _ => none

/-- Rendering of `dependencies`, src/main.py line 104: the comprehension
iterates Python-style over the field value (characters of a string,
elements of a list, keys of a dict) and renders each item single-quoted;
a non-iterable raises `TypeError`. -/
def renderDependencies (v : JValue) : Option String :=
  (pyIter v).map fun items =>
    pyJoin "" (items.map fun dependency => "    - '" ++ pyStr dependency ++ "'\n")

/-- Rendering of one qualifying entry's fragment, src/main.py lines
59-107: each field is extracted with its default, reshaped, and the
fragment is assembled in the fixed order of lines 97-107.  `none` models
a `TypeError` raised anywhere in that block. -/
def renderEntry (dirname : String) (fs : FSEntry) (kvs : List (String × JValue)) :
    Option String := do
  let nameStr ← renderName (pyGet kvs "name" (.str ""))
  let identStr ← renderId (pyGet kvs "id" (pyGet kvs "ident" (.str "unknown")))
  let authorsStr ← renderAuthors (pyGet kvs "authors" (.str "unknown"))
  let maintainersStr ← renderMaintainers (pyGet kvs "maintainers" (.str "unknown"))
  let descriptionStr ← renderDescription
    (pyGet kvs "description" (.str "No description provided."))
  let categoryStr ← renderCategory (pyGet kvs "category" (.str "unknown"))
  let dependenciesStr ← renderDependencies (pyGet kvs "dependencies" (.list []))
  let download_url := "https://alist.doiiars.com/d/Public/Cataclysmdda/" ++ dirname ++ ".zip"
  let folder_size := calculate_folder_size fs
  some ("- type: direct_download\n"
    ++ "  ident: \"" ++ identStr ++ "\"\n"
    ++ "  name: \"" ++ nameStr ++ "\"\n"
    ++ "  authors: \n" ++ authorsStr
    ++ "  maintainers: \n" ++ maintainersStr
    ++ "  description: |\n    " ++ descriptionStr ++ "\n"
    ++ "  category: '" ++ categoryStr ++ "'\n"
    ++ "  dependencies:\n" ++ dependenciesStr
    ++ "  size: " ++ toString folder_size ++ "\n"
    ++ "  url: \"" ++ download_url ++ "\"\n"
    ++ "  homepage: 'https://github.com/Kenan2000/CDDA-Structured-Kenan-Modpack'")

/-- Outcome of one iteration of the `for item in json_data` loop. -/
inductive StepResult where
  | skip : StepResult
  | frag : String → StepResult
  | exc  : String → StepResult
  deriving DecidableEq

/-- One iteration of the loop at src/main.py lines 51-107: `item.get` on
a non-dict raises `AttributeError`; a falsy `name` or a `type` other than
`'MOD_INFO'` skips the entry (`continue`); otherwise the fragment is
rendered (a `TypeError` there escapes). -/
def processItem (dirname : String) (fs : FSEntry) : JValue → StepResult
  | .dict kvs =>
    let name := pyGet kvs "name" (.str "")
    if pyTruthy name = false then .skip
    else if jEqStr (pyGet kvs "type" (.str "")) "MOD_INFO" = false then .skip
    else
      match renderEntry dirname fs kvs with
      | some s => .frag s
      | none => .exc "TypeError"
  | _ => .exc "AttributeError"

/-- The whole `for` loop of src/main.py lines 51-107 over the accumulator
`yaml_contents`: a skipped entry leaves it unchanged, a rendered fragment
REPLACES it (line 97 assigns with `=`, not `+=`), and an exception aborts
the function. -/
def convLoop (dirname : String) (fs : FSEntry) : List JValue → String → Except String String
  | [], acc => .ok acc
  | item :: rest, acc =>
    match processItem dirname fs item with
    | .skip => convLoop dirname fs rest acc
    | .frag s => convLoop dirname fs rest s
    | .exc e => .error e

/-- Embedding of `convert_json_to_custom_yaml` (src/main.py lines
34-112).  `parsed` is the outcome of `json.load` at line 46 (`.error` =
`JSONDecodeError` raised, which escapes the function); `fs` is the tree
of the folder `dirname` that `calculate_folder_size(dirname)` at line 95
walks.  A non-list top-level value prints a warning and returns `""`
(lines 110-112). -/
def convert_json_to_custom_yaml (parsed : Except String JValue) (dirname : String)
    (fs : FSEntry) : Except String String :=
  match parsed with
  | .error e => .error e
  | .ok (.list items) => convLoop dirname fs items ""
  | .ok _ => .ok ""

/-- One candidate folder as the orchestrator sees it: its name, its
filesystem tree, and its `modinfo.json` (`none` = the file is absent;
`some parsed` = present, with `parsed` the outcome of `json.load`). -/
structure Folder where
  name : String
  tree : FSEntry
  modinfo : Option (Except String JValue)

/-- The folder loop of src/main.py lines 126-132 building
`all_yaml_content`: folders without `modinfo.json` are skipped; a
non-empty conversion result is appended together with a blank-line
separator; an exception raised by the conversion aborts the run. -/
def buildAll : List Folder → String → Except String String
  | [], acc => .ok acc
  | f :: rest, acc =>
    match f.modinfo with
    | none => buildAll rest acc
    | some parsed =>
      match convert_json_to_custom_yaml parsed f.name f.tree with
      | .error e => .error e
      | .ok y => buildAll rest (if y = "" then acc else acc ++ (y ++ "\n\n"))

/-- Embedding of `find_folders_and_convert_json` (src/main.py lines
117-140).  `yamlFile` is the prior contents of `all_modinfo.yaml`
(`none` = absent).  A non-empty accumulated text is appended to the file
(mode `'a'`, creating it when absent); an empty accumulation leaves the
file untouched; an uncaught exception aborts the run with the file
untouched (the single write happens only after the loop). -/
def find_folders_and_convert_json (folders : List Folder) (yamlFile : Option String) :
    Except String (Option String) :=
  match buildAll folders "" with
  | .error e => .error e
  | .ok acc => .ok (if acc = "" then yamlFile else some (yamlFile.getD "" ++ acc))

/-- The filter of src/main.py lines 53-58 as a predicate: an entry is
passed on to rendering exactly when its `name` is truthy and its `type`
equals `'MOD_INFO'`.  Non-dict entries never reach the filter (they raise
first), so they do not qualify. -/
def qualifies : JValue → Bool
  | .dict kvs =>
    pyTruthy (pyGet kvs "name" (.str "")) && jEqStr (pyGet kvs "type" (.str "")) "MOD_INFO"
  | _ => false

mutual

/-- Modelled from the spec (§4.1), for comparison with
`calculate_folder_size`: "given a folder path, returns the sum of sizes
(bytes) of every regular file reachable by recursive descent from that
path, including nested subfolders". -/
def specRecursiveSize : FSEntry → Nat
  | .file _ s => s
  | .dir _ cs => specRecursiveSizeList cs

/-- Sum of `specRecursiveSize` over a child list. -/
def specRecursiveSizeList : List FSEntry → Nat
  | [] => 0
  | c :: rest => specRecursiveSize c + specRecursiveSizeList rest

end

/-- True when the pattern is a prefix of the character list. -/
def strHeadMatch : List Char → List Char → Bool
  | [], _ => true
  | _ :: _, [] => false
  | p :: ps, c :: cs => p == c && strHeadMatch ps cs

/-- True when the pattern occurs somewhere in the character list. -/
def strFind : List Char → List Char → Bool
  | pat, [] => strHeadMatch pat []
  | pat, c :: cs => strHeadMatch pat (c :: cs) || strFind pat cs

/-- Executable substring test: `pat` occurs contiguously in `s`. -/
def strContains (s pat : String) : Bool :=
  strFind pat.data s.data

/-- A skipped entry is exactly a dict entry failing the qualification
filter. -/
theorem processItem_skip_iff (d : String) (fs : FSEntry) (kvs : List (String × JValue)) :
    processItem d fs (.dict kvs) = .skip ↔ qualifies (.dict kvs) = false := by
  simp only [processItem, qualifies]
  split_ifs with h1 h2
  · simp [h1]
  · simp [h2]
  · rw [Bool.not_eq_false] at h1 h2
    cases hr : renderEntry d fs kvs <;> simp [h1, h2]

/-- An entry that produced a fragment qualifies. -/
theorem processItem_frag_qualifies (d : String) (fs : FSEntry) (it : JValue) (s : String)
    (h : processItem d fs it = .frag s) : qualifies it = true := by
  cases it <;> simp only [processItem] at h <;> try exact absurd h (by simp)
  next kvs =>
    rw [← Bool.not_eq_false]
    intro hq
    rw [← processItem_skip_iff d fs kvs] at hq
    simp only [processItem] at hq
    rw [hq] at h
    exact absurd h (by simp)

/-- A fragment-producing dict entry renders successfully, and the
fragment is the rendering. -/
theorem processItem_frag_renderEntry (d : String) (fs : FSEntry) (kvs : List (String × JValue))
    (s : String) (h : processItem d fs (.dict kvs) = .frag s) :
    renderEntry d fs kvs = some s := by
  simp only [processItem] at h
  split_ifs at h with h1 h2
  cases hr : renderEntry d fs kvs with
  | none => rw [hr] at h; exact absurd h (by simp)
  | some t => rw [hr] at h; simp only [StepResult.frag.injEq] at h; rw [h]

/-- Whenever an entry renders, the fragment has the fixed shape of
src/main.py lines 97-107, with each field slot filled by its rendering. -/
theorem renderEntry_eq (d : String) (fs : FSEntry) (kvs : List (String × JValue)) (s : String)
    (h : renderEntry d fs kvs = some s) :
    s = "- type: direct_download\n"
      ++ "  ident: \"" ++ (renderId (pyGet kvs "id" (pyGet kvs "ident" (.str "unknown")))).getD "" ++ "\"\n"
      ++ "  name: \"" ++ (renderName (pyGet kvs "name" (.str ""))).getD "" ++ "\"\n"
      ++ "  authors: \n" ++ (renderAuthors (pyGet kvs "authors" (.str "unknown"))).getD ""
      ++ "  maintainers: \n" ++ (renderMaintainers (pyGet kvs "maintainers" (.str "unknown"))).getD ""
      ++ "  description: |\n    "
      ++ (renderDescription (pyGet kvs "description" (.str "No description provided."))).getD "" ++ "\n"
      ++ "  category: '" ++ (renderCategory (pyGet kvs "category" (.str "unknown"))).getD "" ++ "'\n"
      ++ "  dependencies:\n" ++ (renderDependencies (pyGet kvs "dependencies" (.list []))).getD ""
      ++ "  size: " ++ toString (calculate_folder_size fs) ++ "\n"
      ++ "  url: \"" ++ ("https://alist.doiiars.com/d/Public/Cataclysmdda/" ++ d ++ ".zip") ++ "\"\n"
      ++ "  homepage: 'https://github.com/Kenan2000/CDDA-Structured-Kenan-Modpack'" := by
  cases hn : renderName (pyGet kvs "name" (.str "")) with
  | none => simp [renderEntry, hn] at h
  | some v1 =>
  cases hi : renderId (pyGet kvs "id" (pyGet kvs "ident" (.str "unknown"))) with
  | none => simp [renderEntry, hn, hi] at h
  | some v2 =>
  cases ha : renderAuthors (pyGet kvs "authors" (.str "unknown")) with
  | none => simp [renderEntry, hn, hi, ha] at h
  | some v3 =>
  cases hm : renderMaintainers (pyGet kvs "maintainers" (.str "unknown")) with
  | none => simp [renderEntry, hn, hi, ha, hm] at h
  | some v4 =>
  cases hd : renderDescription (pyGet kvs "description" (.str "No description provided.")) with
  | none => simp [renderEntry, hn, hi, ha, hm, hd] at h
  | some v5 =>
  cases hc : renderCategory (pyGet kvs "category" (.str "unknown")) with
  | none => simp [renderEntry, hn, hi, ha, hm, hd, hc] at h
  | some v6 =>
  cases hp : renderDependencies (pyGet kvs "dependencies" (.list [])) with
  | none => simp [renderEntry, hn, hi, ha, hm, hd, hc, hp] at h
  | some v7 =>
    simp only [renderEntry, hn, hi, ha, hm, hd, hc, hp, Option.bind_eq_bind, Option.some_bind,
      Option.some.injEq] at h
    simp only [hn, hi, ha, hm, hd, hc, hp, Option.getD_some]
    exact h.symm

/-- Whatever the loop of `convert_json_to_custom_yaml` returns without
raising is either the incoming accumulator (no qualifying entry) or the
fragment of the LAST qualifying entry: src/main.py line 97 overwrites
`yaml_contents` on every qualifying iteration. -/
theorem convLoop_last (d : String) (fs : FSEntry) :
    ∀ (items : List JValue) (acc s : String), convLoop d fs items acc = .ok s →
      ((items.filter qualifies = []) → s = acc)
      ∧ (∀ q, (items.filter qualifies).getLast? = some q → processItem d fs q = .frag s) := by
  intro items
  induction items with
  | nil =>
    intro acc s h
    simp only [convLoop, Except.ok.injEq] at h
    exact ⟨fun _ => h.symm, fun q hq => by simp at hq⟩
  | cons item rest ih =>
    intro acc s h
    simp only [convLoop] at h
    cases hpi : processItem d fs item with
    | skip =>
      rw [hpi] at h
      have hq : qualifies item = false := by
        cases item with
        | null => rfl
        | bool b => rfl
        | num n => rfl
        | str a => rfl
        | list xs => rfl
        | dict kvs => exact (processItem_skip_iff d fs kvs).mp hpi
      have := ih acc s h
      constructor
      · intro hf
        rw [List.filter_cons_of_neg (by simp [hq])] at hf
        exact this.1 hf
      · intro q hql
        rw [List.filter_cons_of_neg (by simp [hq])] at hql
        exact this.2 q hql
    | frag t =>
      rw [hpi] at h
      have hq : qualifies item = true := processItem_frag_qualifies d fs item t hpi
      have := ih t s h
      rw [List.filter_cons_of_pos (by simp [hq])]
      constructor
      · intro hf; exact absurd hf (by simp)
      · intro q hql
        cases hfr : rest.filter qualifies with
        | nil =>
          rw [hfr] at hql
          simp only [List.getLast?_singleton, Option.some.injEq] at hql
          rw [this.1 hfr, ← hql]
          exact hpi
        | cons b l =>
          rw [hfr] at hql
          rw [List.getLast?_cons_cons] at hql
          rw [← hfr] at hql
          exact this.2 q hql
    | exc e =>
      rw [hpi] at h
      exact absurd h (by simp)

/-- The `os.walk`-style file size accumulation over a child list agrees
with the recursive-descent sum of the spec's Size Calculator contract. -/
theorem walkList_sum_spec : (cs : List FSEntry) →
    (topFiles cs).sum + (walkEntry.walkChildren cs).sum = specRecursiveSizeList cs
  | [] => by simp [topFiles, walkEntry.walkChildren, specRecursiveSizeList]
  | .file n sz :: rest => by
    have ih := walkList_sum_spec rest
    simp only [topFiles, walkEntry.walkChildren, walkEntry, specRecursiveSizeList,
      List.sum_cons, List.nil_append, specRecursiveSize]
    omega
  | .dir n cs' :: rest => by
    have ih1 := walkList_sum_spec cs'
    have ih2 := walkList_sum_spec rest
    simp only [topFiles, walkEntry.walkChildren, walkEntry, specRecursiveSizeList,
      List.sum_cons, List.sum_append, specRecursiveSize]
    omega

/-- Refinement of the Size Calculator: on a folder, the source's
`os.walk` accumulation equals the spec's recursive-descent file-size
sum. -/
theorem calculate_folder_size_spec (n : String) (cs : List FSEntry) :
    calculate_folder_size (.dir n cs) = specRecursiveSize (.dir n cs) := by
  simp only [calculate_folder_size, walkEntry, List.sum_append, specRecursiveSize]
  exact walkList_sum_spec cs

/-- True exactly for list values (the `isinstance(json_data, list)` test
at src/main.py line 50). -/
def jIsList : JValue → Bool
  | .list _ => true
  | _ => false

/-- A descriptor whose top-level value is valid JSON but not a list
takes the `else` branch at src/main.py lines 110-112: warn and return
the empty string, raising nothing. -/
theorem convert_nonlist (v : JValue) (dirname : String) (fs : FSEntry)
    (h : jIsList v = false) :
    convert_json_to_custom_yaml (.ok v) dirname fs = .ok "" := by
  cases v <;> simp_all [convert_json_to_custom_yaml, jIsList]

/-- A folder whose conversion yields a string leaves the loop of
src/main.py lines 126-132 with the accumulator extended exactly when the
string is non-empty. -/
theorem buildAll_cons_ok (name : String) (tree : FSEntry) (parsed : Except String JValue)
    (rest : List Folder) (acc y : String)
    (hc : convert_json_to_custom_yaml parsed name tree = .ok y) :
    buildAll (({ name := name, tree := tree, modinfo := some parsed } : Folder) :: rest) acc
      = buildAll rest (if y = "" then acc else acc ++ (y ++ "\n\n")) := by
  simp [buildAll, hc]

/-- C1: for a list-shaped descriptor whose conversion completes, the
returned text is exactly ONE rendered fragment, namely the fragment of
the LAST qualifying entry: the accumulation variable at src/main.py line
97 is overwritten, not appended, on each qualifying iteration. -/
theorem last_qualifying_entry_wins (items : List JValue) (dirname : String) (fs : FSEntry)
    (s : String) (q : JValue)
    (h : convert_json_to_custom_yaml (.ok (.list items)) dirname fs = .ok s)
    (hq : (items.filter qualifies).getLast? = some q) :
    processItem dirname fs q = .frag s :=
  (convLoop_last dirname fs items "" s h).2 q hq

/-- Witness input: a first qualifying entry. -/
def wItemA : JValue :=
  .dict [("type", .str "MOD_INFO"), ("name", .str "First"), ("id", .str "one")]

/-- Witness input: a second qualifying entry. -/
def wItemB : JValue :=
  .dict [("type", .str "MOD_INFO"), ("name", .str "Second"), ("id", .str "two")]

/-- Witness input: a folder tree holding one 42-byte file. -/
def wTree : FSEntry := .dir "WitMod" [.file "modinfo.json" 42]

/-- Witness input: the rendered fragment of `wItemB`. -/
def wFragB : String :=
  (renderEntry "WitMod" wTree
    [("type", .str "MOD_INFO"), ("name", .str "Second"), ("id", .str "two")]).getD ""

/-- Witness for C1 at a two-entry descriptor whose entries both qualify:
the conversion result is the second entry's fragment. -/
theorem last_qualifying_entry_wins_witness :
    processItem "WitMod" wTree wItemB = .frag wFragB :=
  last_qualifying_entry_wins [wItemA, wItemB] "WitMod" wTree wFragB wItemB (by rfl) (by rfl)

/-- Witness input: a folder whose `modinfo.json` holds invalid JSON, so
`json.load` raises `JSONDecodeError`. -/
def badFolder : Folder :=
  { name := "Bad", tree := .dir "Bad" [],
    modinfo := some (.error "Expecting value: line 1 column 1 (char 0)") }

/-- Witness input: a folder whose `modinfo.json` holds one qualifying
entry. -/
def goodFolder : Folder :=
  { name := "Good", tree := .dir "Good" [.file "modinfo.json" 7],
    modinfo := some (.ok (.list [.dict [("type", .str "MOD_INFO"), ("name", .str "Good Mod")]])) }

/-- C2 counterexample: a descriptor whose contents are not valid JSON
makes `json.load` at src/main.py line 46 raise, and the orchestrator
(lines 126-132, with no try/except) lets the exception abort the whole
run: the following folder is never processed and nothing is written,
contradicting "a failure while processing that folder's descriptor never
aborts the overall run". -/
theorem invalid_json_aborts_run :
    find_folders_and_convert_json [badFolder, goodFolder] none =
      .error "Expecting value: line 1 column 1 (char 0)" := rfl

/-- The loop of src/main.py lines 126-132 leaves the accumulator alone
across folders whose descriptor is absent or is valid JSON with a
non-list top-level value. -/
theorem buildAll_harmless (acc : String) :
    ∀ folders : List Folder,
      (∀ f ∈ folders, f.modinfo = none ∨
        ∃ v : JValue, f.modinfo = some (.ok v) ∧ jIsList v = false) →
      buildAll folders acc = .ok acc := by
  intro folders
  induction folders with
  | nil => intro _; rfl
  | cons f rest ih =>
    intro h
    rcases h f (by simp) with hf | ⟨v, hf, hv⟩
    · simp only [buildAll, hf]
      exact ih fun g hg => h g (by simp [hg])
    · simp only [buildAll, hf, convert_nonlist v f.name f.tree hv, if_pos rfl]
      exact ih fun g hg => h g (by simp [hg])

/-- C2 amended: the only per-folder descriptor failure the code survives
is the one it explicitly handles — a descriptor that parses but whose
top-level JSON value is not a list.  A run over folders whose descriptors
are absent or of that shape completes without aborting and leaves the
output file untouched; a descriptor whose contents are not valid JSON,
by contrast, raises an uncaught exception that aborts the whole run (see
the counterexample). -/
theorem nonlist_descriptor_never_aborts (folders : List Folder) (yamlFile : Option String)
    (h : ∀ f ∈ folders, f.modinfo = none ∨
        ∃ v : JValue, f.modinfo = some (.ok v) ∧ jIsList v = false) :
    find_folders_and_convert_json folders yamlFile = .ok yamlFile := by
  simp [find_folders_and_convert_json, buildAll_harmless "" folders h]

/-- Witness input: a folder whose descriptor parses to a dict, not a
list. -/
def nonlistFolder : Folder :=
  { name := "NL", tree := .dir "NL" [],
    modinfo := some (.ok (.dict [("type", .str "MOD_INFO")])) }

/-- Witness for the amended C2: a run over a missing-descriptor folder
and a non-list-descriptor folder completes and writes nothing. -/
theorem nonlist_descriptor_never_aborts_witness :
    find_folders_and_convert_json
      [{ name := "Empty", tree := .dir "Empty" [], modinfo := none }, nonlistFolder]
      (some "previous") = .ok (some "previous") :=
  nonlist_descriptor_never_aborts _ _ (by
    intro f hf
    simp only [List.mem_cons, List.not_mem_nil, or_false] at hf
    rcases hf with hf | hf <;> subst hf
    · exact Or.inl rfl
    · exact Or.inr ⟨.dict [("type", .str "MOD_INFO")], rfl, rfl⟩)

/-- The loop body never touches the accumulator over entries that are
dicts failing the qualification filter. -/
theorem convLoop_all_skip (d : String) (fs : FSEntry) :
    ∀ (items : List JValue) (acc : String),
      (∀ it ∈ items, (∃ kvs, it = .dict kvs) ∧ qualifies it = false) →
      convLoop d fs items acc = .ok acc := by
  intro items
  induction items with
  | nil => intro acc _; rfl
  | cons item rest ih =>
    intro acc h
    obtain ⟨⟨kvs, hk⟩, hq⟩ := h item (by simp)
    subst hk
    have hskip : processItem d fs (.dict kvs) = .skip := (processItem_skip_iff d fs kvs).mpr hq
    simp only [convLoop, hskip]
    exact ih acc fun it hit => h it (by simp [hit])

/-- C3: an entry reaches rendering (rather than being skipped by
`continue`) exactly when its `type` equals `'MOD_INFO'` and its `name`
is present and truthy (src/main.py lines 53-58); a list-shaped
descriptor all of whose entries are dicts failing that filter converts
to the empty string, and the orchestrator appends nothing for a folder
whose conversion is empty. -/
theorem qualifying_filter_iff :
    (∀ (d : String) (fs : FSEntry) (kvs : List (String × JValue)),
        processItem d fs (.dict kvs) = .skip
          ↔ ¬ (jEqStr (pyGet kvs "type" (.str "")) "MOD_INFO" = true
               ∧ pyTruthy (pyGet kvs "name" (.str "")) = true))
    ∧ (∀ (d : String) (fs : FSEntry) (items : List JValue),
        (∀ it ∈ items, (∃ kvs, it = .dict kvs) ∧ qualifies it = false) →
        convert_json_to_custom_yaml (.ok (.list items)) d fs = .ok "")
    ∧ (∀ (name : String) (tree : FSEntry) (parsed : Except String JValue)
        (rest : List Folder) (acc : String),
        convert_json_to_custom_yaml parsed name tree = .ok "" →
        buildAll (({ name := name, tree := tree, modinfo := some parsed } : Folder) :: rest) acc
          = buildAll rest acc) := by
  refine ⟨fun d fs kvs => ?_, fun d fs items h => convLoop_all_skip d fs items "" h,
    fun name tree parsed rest acc hc => ?_⟩
  · rw [processItem_skip_iff]
    simp only [qualifies]
    cases hn : pyTruthy (pyGet kvs "name" (.str "")) <;>
      cases ht : jEqStr (pyGet kvs "type" (.str "")) "MOD_INFO" <;> simp
  · rw [buildAll_cons_ok name tree parsed rest acc "" hc]
    simp

/-- Witness for C3: a descriptor with a wrong-discriminator entry and an
empty-name entry converts to the empty string. -/
theorem qualifying_filter_iff_witness :
    convert_json_to_custom_yaml
      (.ok (.list [.dict [("type", .str "SOUND_PACK"), ("name", .str "X")],
                   .dict [("type", .str "MOD_INFO"), ("name", .str "")]]))
      "d" (.dir "d" []) = .ok "" :=
  qualifying_filter_iff.2.1 "d" (.dir "d" []) _ (by
    intro it hit
    simp only [List.mem_cons, List.not_mem_nil, or_false] at hit
    rcases hit with hit | hit <;> subst hit
    · exact ⟨⟨_, rfl⟩, rfl⟩
    · exact ⟨⟨_, rfl⟩, rfl⟩)

/-- C4: a descriptor file whose top-level JSON value is valid but not a
list makes `convert_json_to_custom_yaml` take the `else` branch at
src/main.py lines 110-112 — report and return the empty string, raising
nothing — and the orchestrator appends nothing for that folder and
continues with the remaining folders. -/
theorem nonlist_descriptor_yields_empty (v : JValue) (dirname : String) (fs : FSEntry)
    (h : jIsList v = false) :
    convert_json_to_custom_yaml (.ok v) dirname fs = .ok ""
    ∧ (∀ (name : String) (tree : FSEntry) (rest : List Folder) (acc : String),
        buildAll (({ name := name, tree := tree, modinfo := some (.ok v) } : Folder) :: rest) acc
          = buildAll rest acc) := by
  refine ⟨convert_nonlist v dirname fs h, fun name tree rest acc => ?_⟩
  rw [buildAll_cons_ok name tree (.ok v) rest acc "" (convert_nonlist v name tree h)]
  simp

/-- Witness for C4: a top-level JSON number is reported and converted to
the empty string. -/
theorem nonlist_descriptor_yields_empty_witness :
    convert_json_to_custom_yaml (.ok (.num 5)) "d" (.dir "d" []) = .ok "" :=
  (nonlist_descriptor_yields_empty (.num 5) "d" (.dir "d" []) rfl).1

set_option maxRecDepth 10000

/-- Witness input: the spec's `TestMod` descriptor entry fields. -/
def testKvs : List (String × JValue) :=
  [("type", .str "MOD_INFO"), ("name", .str "Test"), ("id", .str "test_id"),
   ("authors", .list [.str "A"]), ("category", .str "misc")]

/-- Witness input: the `TestMod` folder with a single 1234-byte file. -/
def testTree : FSEntry := .dir "TestMod" [.file "modinfo.json" 1234]

/-- Witness input: the fragment rendered for the `TestMod` entry. -/
def testFragment : String := (renderEntry "TestMod" testTree testKvs).getD ""

/-- C5: every rendered fragment has the fixed field order `type`,
`ident`, `name`, `authors`, `maintainers`, `description` (a block
literal), `category`, `dependencies`, `size`, `url` (the fixed remote
base followed by the folder name and `.zip`), `homepage` (the fixed
repository URL), with each slot filled by its field rendering; and the
spec's `TestMod` example (a one-entry descriptor with type `MOD_INFO`,
name `Test`, id `test_id`, authors `["A"]`, category `misc`, and
folder byte size 1234) converts to a fragment containing
`ident: "test_id"`, `name: "Test"`, `size: 1234` and a url ending in
`TestMod.zip`. -/
theorem fragment_shape_and_example :
    (∀ (dirname : String) (fs : FSEntry) (kvs : List (String × JValue)) (s : String),
      processItem dirname fs (.dict kvs) = .frag s →
      s = "- type: direct_download\n"
        ++ "  ident: \""
        ++ (renderId (pyGet kvs "id" (pyGet kvs "ident" (.str "unknown")))).getD "" ++ "\"\n"
        ++ "  name: \"" ++ (renderName (pyGet kvs "name" (.str ""))).getD "" ++ "\"\n"
        ++ "  authors: \n" ++ (renderAuthors (pyGet kvs "authors" (.str "unknown"))).getD ""
        ++ "  maintainers: \n"
        ++ (renderMaintainers (pyGet kvs "maintainers" (.str "unknown"))).getD ""
        ++ "  description: |\n    "
        ++ (renderDescription (pyGet kvs "description" (.str "No description provided."))).getD ""
        ++ "\n"
        ++ "  category: '" ++ (renderCategory (pyGet kvs "category" (.str "unknown"))).getD ""
        ++ "'\n"
        ++ "  dependencies:\n" ++ (renderDependencies (pyGet kvs "dependencies" (.list []))).getD ""
        ++ "  size: " ++ toString (calculate_folder_size fs) ++ "\n"
        ++ "  url: \"" ++ ("https://alist.doiiars.com/d/Public/Cataclysmdda/" ++ dirname ++ ".zip")
        ++ "\"\n"
        ++ "  homepage: 'https://github.com/Kenan2000/CDDA-Structured-Kenan-Modpack'")
    ∧ convert_json_to_custom_yaml (.ok (.list [.dict testKvs])) "TestMod" testTree
        = .ok testFragment
    ∧ strContains testFragment "ident: \"test_id\"" = true
    ∧ strContains testFragment "name: \"Test\"" = true
    ∧ strContains testFragment "size: 1234" = true
    ∧ strContains testFragment
        "url: \"https://alist.doiiars.com/d/Public/Cataclysmdda/TestMod.zip\"" = true :=
  ⟨fun dirname fs kvs s h =>
      renderEntry_eq dirname fs kvs s (processItem_frag_renderEntry dirname fs kvs s h),
    rfl, by decide, by decide, by decide, by decide⟩

/-- Witness for C5 discharging the fragment-shape hypothesis at the
`TestMod` entry: it renders, and the fragment is the fixed template. -/
theorem fragment_shape_and_example_witness :
    testFragment = "- type: direct_download\n"
      ++ "  ident: \""
      ++ (renderId (pyGet testKvs "id" (pyGet testKvs "ident" (.str "unknown")))).getD "" ++ "\"\n"
      ++ "  name: \"" ++ (renderName (pyGet testKvs "name" (.str ""))).getD "" ++ "\"\n"
      ++ "  authors: \n" ++ (renderAuthors (pyGet testKvs "authors" (.str "unknown"))).getD ""
      ++ "  maintainers: \n"
      ++ (renderMaintainers (pyGet testKvs "maintainers" (.str "unknown"))).getD ""
      ++ "  description: |\n    "
      ++ (renderDescription (pyGet testKvs "description" (.str "No description provided."))).getD ""
      ++ "\n"
      ++ "  category: '" ++ (renderCategory (pyGet testKvs "category" (.str "unknown"))).getD ""
      ++ "'\n"
      ++ "  dependencies:\n"
      ++ (renderDependencies (pyGet testKvs "dependencies" (.list []))).getD ""
      ++ "  size: " ++ toString (calculate_folder_size testTree) ++ "\n"
      ++ "  url: \"" ++ ("https://alist.doiiars.com/d/Public/Cataclysmdda/" ++ "TestMod" ++ ".zip")
      ++ "\"\n"
      ++ "  homepage: 'https://github.com/Kenan2000/CDDA-Structured-Kenan-Modpack'" :=
  fragment_shape_and_example.1 "TestMod" testTree testKvs testFragment (by rfl)

/-- C6: for a list-shaped descriptor with exactly one qualifying entry,
the integer written after `size:` in the rendered fragment is the Size
Calculator's result for the owning folder, which itself equals the
recursive-descent sum of the byte sizes of every regular file under the
folder, nested subfolders included. -/
theorem size_field_matches_recursive_size (dirname n : String) (cs : List FSEntry)
    (items : List JValue) (s : String) (q : JValue)
    (h : convert_json_to_custom_yaml (.ok (.list items)) dirname (.dir n cs) = .ok s)
    (hone : items.filter qualifies = [q]) :
    calculate_folder_size (.dir n cs) = specRecursiveSize (.dir n cs)
    ∧ ∃ pre post,
        s = pre ++ ("  size: " ++ toString (specRecursiveSize (.dir n cs)) ++ "\n") ++ post := by
  refine ⟨calculate_folder_size_spec n cs, ?_⟩
  have hlast : (items.filter qualifies).getLast? = some q := by rw [hone]; rfl
  have hfrag := (convLoop_last dirname (.dir n cs) items "" s h).2 q hlast
  have hq : qualifies q = true := processItem_frag_qualifies _ _ _ _ hfrag
  obtain ⟨kvs, rfl⟩ : ∃ kvs, q = .dict kvs := by
    cases q <;> first
      | exact ⟨_, rfl⟩
      | simp [qualifies] at hq
  have hs := renderEntry_eq dirname (.dir n cs) kvs s
    (processItem_frag_renderEntry _ _ _ _ hfrag)
  rw [calculate_folder_size_spec n cs] at hs
  refine ⟨"- type: direct_download\n"
      ++ "  ident: \""
      ++ (renderId (pyGet kvs "id" (pyGet kvs "ident" (.str "unknown")))).getD "" ++ "\"\n"
      ++ "  name: \"" ++ (renderName (pyGet kvs "name" (.str ""))).getD "" ++ "\"\n"
      ++ "  authors: \n" ++ (renderAuthors (pyGet kvs "authors" (.str "unknown"))).getD ""
      ++ "  maintainers: \n"
      ++ (renderMaintainers (pyGet kvs "maintainers" (.str "unknown"))).getD ""
      ++ "  description: |\n    "
      ++ (renderDescription (pyGet kvs "description" (.str "No description provided."))).getD ""
      ++ "\n"
      ++ "  category: '" ++ (renderCategory (pyGet kvs "category" (.str "unknown"))).getD ""
      ++ "'\n"
      ++ "  dependencies:\n" ++ (renderDependencies (pyGet kvs "dependencies" (.list []))).getD "",
    "  url: \"" ++ ("https://alist.doiiars.com/d/Public/Cataclysmdda/" ++ dirname ++ ".zip")
      ++ "\"\n"
      ++ "  homepage: 'https://github.com/Kenan2000/CDDA-Structured-Kenan-Modpack'", ?_⟩
  rw [hs]
  simp only [String.append_assoc]

/-- Witness input: a folder tree with a top-level file and a nested
subfolder file (5 + 7 bytes). -/
def wSizeCs : List FSEntry := [.file "a.json" 5, .dir "sub" [.file "b.json" 7]]

/-- Witness input: a one-entry descriptor qualifying for rendering. -/
def wSizeItem : JValue := .dict [("type", .str "MOD_INFO"), ("name", .str "S")]

/-- Witness input: the fragment rendered for `wSizeItem` in the
`SizeMod` folder. -/
def wSizeFragment : String :=
  (renderEntry "SizeMod" (.dir "SizeMod" wSizeCs)
    [("type", .str "MOD_INFO"), ("name", .str "S")]).getD ""

/-- Witness for C6 at a nested 12-byte folder and a single-entry
descriptor. -/
theorem size_field_matches_recursive_size_witness :
    calculate_folder_size (.dir "SizeMod" wSizeCs) = specRecursiveSize (.dir "SizeMod" wSizeCs)
    ∧ ∃ pre post,
        wSizeFragment =
          pre ++ ("  size: " ++ toString (specRecursiveSize (.dir "SizeMod" wSizeCs)) ++ "\n")
            ++ post :=
  size_field_matches_recursive_size "SizeMod" "SizeMod" wSizeCs [wSizeItem] wSizeFragment
    wSizeItem (by rfl) (by rfl)

/-- C7: a bare-string `authors` value is coerced to a one-element list
before the bulleted rendering (src/main.py lines 69-71), so the whole
per-entry processing — and hence the fragment — is character-for-character
the same as for the one-element list; likewise for `maintainers` (lines
76-78). -/
theorem authors_string_list_coercion (s : String) (kvs : List (String × JValue))
    (dirname : String) (fs : FSEntry) :
    renderAuthors (.str s) = renderAuthors (.list [.str s])
    ∧ renderMaintainers (.str s) = renderMaintainers (.list [.str s])
    ∧ processItem dirname fs (.dict (("authors", .str s) :: kvs))
        = processItem dirname fs (.dict (("authors", .list [.str s]) :: kvs))
    ∧ processItem dirname fs (.dict (("maintainers", .str s) :: kvs))
        = processItem dirname fs (.dict (("maintainers", .list [.str s]) :: kvs)) :=
  ⟨rfl, rfl, rfl, rfl⟩

/-- The source's eager two-level `item.get("id", item.get("ident", ...))`
fallback, restated through `List.lookup`. -/
theorem pyGet_lookup (kvs : List (String × JValue)) (k : String) (d : JValue) :
    pyGet kvs k d = (match List.lookup k kvs with | some v => v | none => d) := by
  induction kvs with
  | nil => rfl
  | cons kv rest ih =>
    obtain ⟨k', v⟩ := kv
    by_cases h : k' = k
    · subst h; simp [pyGet, List.lookup]
    · have hb : (k == k') = false := beq_eq_false_iff_ne.mpr (Ne.symm h)
      simp [pyGet, List.lookup, h, hb, ih]

/-- C8: the rendered identifier comes from `id` when that key is
present, else from `ident`, else the sentinel `"unknown"` (src/main.py
line 62); a string source passes through as a scalar, and a list source
is rendered as the four-space-indented dash-prefixed block (placed where
the scalar would go, between the quotes of the `ident:` line). -/
theorem ident_fallback_and_list_rendering :
    (∀ kvs : List (String × JValue),
        pyGet kvs "id" (pyGet kvs "ident" (.str "unknown")) =
          (match List.lookup "id" kvs with
           | some v => v
           | none =>
             match List.lookup "ident" kvs with
             | some v => v
             | none => .str "unknown"))
    ∧ (∀ s : String, renderId (.str s) = some s)
    ∧ (∀ xs : List JValue,
        renderId (.list xs) = some (pyJoin "" (xs.map fun v => "    - " ++ pyStr v ++ "\n")))
    ∧ (∀ (d : String) (fs : FSEntry) (kvs : List (String × JValue)) (s : String)
        (xs : List JValue),
        processItem d fs (.dict kvs) = .frag s →
        pyGet kvs "id" (pyGet kvs "ident" (.str "unknown")) = .list xs →
        ∃ pre post,
          s = pre ++ ("  ident: \""
            ++ pyJoin "" (xs.map fun v => "    - " ++ pyStr v ++ "\n") ++ "\"\n") ++ post) := by
  refine ⟨fun kvs => ?_, fun s => rfl, fun xs => rfl, fun d fs kvs s xs hfrag hid => ?_⟩
  · rw [pyGet_lookup kvs "id", pyGet_lookup kvs "ident"]
  · have hs := renderEntry_eq d fs kvs s (processItem_frag_renderEntry _ _ _ _ hfrag)
    rw [hid] at hs
    refine ⟨"- type: direct_download\n",
      "  name: \"" ++ (renderName (pyGet kvs "name" (.str ""))).getD "" ++ "\"\n"
        ++ "  authors: \n" ++ (renderAuthors (pyGet kvs "authors" (.str "unknown"))).getD ""
        ++ "  maintainers: \n"
        ++ (renderMaintainers (pyGet kvs "maintainers" (.str "unknown"))).getD ""
        ++ "  description: |\n    "
        ++ (renderDescription (pyGet kvs "description" (.str "No description provided."))).getD ""
        ++ "\n"
        ++ "  category: '" ++ (renderCategory (pyGet kvs "category" (.str "unknown"))).getD ""
        ++ "'\n"
        ++ "  dependencies:\n" ++ (renderDependencies (pyGet kvs "dependencies" (.list []))).getD ""
        ++ "  size: " ++ toString (calculate_folder_size fs) ++ "\n"
        ++ "  url: \"" ++ ("https://alist.doiiars.com/d/Public/Cataclysmdda/" ++ d ++ ".zip")
        ++ "\"\n"
        ++ "  homepage: 'https://github.com/Kenan2000/CDDA-Structured-Kenan-Modpack'", ?_⟩
    rw [hs]
    simp only [renderId, Option.getD_some, String.append_assoc]

/-- Witness input: an entry whose `id` field is a two-element list. -/
def wIdKvs : List (String × JValue) :=
  [("type", .str "MOD_INFO"), ("name", .str "I"), ("id", .list [.str "a", .str "b"])]

/-- Witness input: the fragment rendered for `wIdKvs`. -/
def wIdFragment : String := (renderEntry "IdMod" (.dir "IdMod" []) wIdKvs).getD ""

/-- Witness for C8 at an entry whose `id` is a list: the ident slot
holds the dash-prefixed block. -/
theorem ident_fallback_and_list_rendering_witness :
    ∃ pre post,
      wIdFragment = pre ++ ("  ident: \""
        ++ pyJoin "" ([JValue.str "a", JValue.str "b"].map
            fun v => "    - " ++ pyStr v ++ "\n") ++ "\"\n") ++ post :=
  ident_fallback_and_list_rendering.2.2.2 "IdMod" (.dir "IdMod" []) wIdKvs wIdFragment
    [.str "a", .str "b"] (by rfl) (by rfl)

/-- C9: when the accumulated text is non-empty the orchestrator opens
`all_modinfo.yaml` in append mode (src/main.py line 136) and writes the
text after any existing contents, creating the file when absent; running
the whole process twice on the same inputs therefore leaves the first
run's output intact and appends a second copy (growth, not
replacement); when the accumulated text is empty the file is neither
created nor modified. -/
theorem output_append_semantics (folders : List Folder) (yamlFile : Option String) (acc : String)
    (h : buildAll folders "" = .ok acc) :
    (acc ≠ "" →
      find_folders_and_convert_json folders yamlFile = .ok (some (yamlFile.getD "" ++ acc))
      ∧ find_folders_and_convert_json folders (some (yamlFile.getD "" ++ acc))
          = .ok (some (yamlFile.getD "" ++ acc ++ acc)))
    ∧ (acc = "" → find_folders_and_convert_json folders yamlFile = .ok yamlFile) := by
  constructor
  · intro hne
    constructor
    · simp [find_folders_and_convert_json, h, hne]
    · simp [find_folders_and_convert_json, h, hne]
  · intro he
    simp [find_folders_and_convert_json, h, he]

/-- Witness input: the text `find_folders_and_convert_json` accumulates
over the single folder `goodFolder`. -/
def wAcc : String :=
  match buildAll [goodFolder] "" with
  | .ok a => a
  | .error _ => ""

/-- Witness for C9: over `goodFolder`, a first run on an absent file
creates it with the fragment set, and a second run appends a second
copy. -/
theorem output_append_semantics_witness :
    find_folders_and_convert_json [goodFolder] none = .ok (some (Option.getD none "" ++ wAcc))
    ∧ find_folders_and_convert_json [goodFolder] (some (Option.getD none "" ++ wAcc))
        = .ok (some (Option.getD none "" ++ wAcc ++ wAcc)) :=
  (output_append_semantics [goodFolder] none wAcc (by rfl)).1 (by decide)

/-- C10: a `dependencies` field holding a bare string is iterated
Python-style by the comprehension at src/main.py line 104, producing one
single-quoted dash-prefixed item per character of the string; for
`"ab"`, the items are `'a'` and `'b'`. -/
theorem dependencies_string_iterates_chars :
    (∀ s : String, renderDependencies (.str s) =
        some (pyJoin "" (s.data.map fun c => "    - '" ++ String.singleton c ++ "'\n")))
    ∧ renderDependencies (.str "ab") = some ("    - 'a'\n    - 'b'\n") := by
  constructor
  · intro s
    show some (pyJoin "" ((s.data.map fun c => JValue.str (String.singleton c)).map
          fun dependency => "    - '" ++ pyStr dependency ++ "'\n"))
        = some (pyJoin "" (s.data.map fun c => "    - '" ++ String.singleton c ++ "'\n"))
    rw [List.map_map]
    rfl
  · rfl
